import Mathlib

/-!
Verification development for the hono-api-server repository: a task CRUD web
API built on Hono with drizzle-orm persistence, drizzle-zod derived request
validation, Better-Auth session handling and OpenAPI documentation export.

The embedding models, from the source files:
- src/db/schema/tasks.ts : the tasks table and its three derived zod shapes;
- src/lib/constants.ts : the error code and message constants;
- create-app.ts : the middleware chain and route registration order;
- configure-open-api.ts : the documentation routes, in particular /llms.txt;
- index.ts : the mounting of the index and tasks routers under /api.

Timestamps are modelled as Nat (an abstract clock value passed in by the
caller), request paths as lists of path segments (the string "/api/tasks/7"
is the list of segments api, tasks, 7), and the opaque external
collaborators (Better-Auth, the markdown generator) as explicit parameters.
-/

/-- A persisted task row.  Mirrors the drizzle pgTable declaration in
src/db/schema/tasks.ts: id (serial primary key), name (varchar 255, not
null), completed (boolean, default false, not null), createdAt and updatedAt
(timestamps, defaultNow, not null).  All columns are notNull, so the Lean
fields are plain, not Option. -/
structure TaskRow where
  id : Nat
  name : String
  completed : Bool
  createdAt : Nat
  updatedAt : Nat
deriving Repr, DecidableEq

/-- A JSON request body for the create and update endpoints.  The only two
fields the insert/patch schemas admit are name and completed; each is
Option to record presence or absence in the body. -/
structure TaskBody where
  name : Option String
  completed : Option Bool
deriving Repr, DecidableEq

/-- One column of the drizzle table declaration: its TypeScript property
key, its SQL column name, whether it carries notNull, and whether it has a
database-side default (serial counts as a default, as do the two
defaultNow timestamps). -/
structure ColumnDef where
  key : String
  sqlName : String
  notNull : Bool
  hasDefault : Bool
deriving Repr, DecidableEq

/-- The tasks table from src/db/schema/tasks.ts, column by column:
id serial primary key; name varchar(255) notNull; completed boolean
default(false) notNull; createdAt timestamp defaultNow notNull; updatedAt
timestamp defaultNow notNull. -/
def tasksTable : List ColumnDef :=
  [⟨"id", "id", true, true⟩,
   ⟨"name", "name", true, false⟩,
   ⟨"completed", "completed", true, true⟩,
   ⟨"createdAt", "created_at", true, true⟩,
   ⟨"updatedAt", "updated_at", true, true⟩]

/-- A zod object shape: the keys it declares and the subset of keys a body
must supply. -/
structure ZodShape where
  fields : List String
  required : List String
deriving Repr, DecidableEq

/-- drizzle-zod createSelectSchema: every column is a field and every
notNull column is required (rows read back always carry all columns). -/
def createSelectSchema (t : List ColumnDef) : ZodShape :=
  ⟨t.map (·.key), (t.filter (·.notNull)).map (·.key)⟩

/-- drizzle-zod createInsertSchema: every column is a field; a column is
required exactly when it is notNull and has no database default (columns
with defaults may be omitted and the database fills them in). -/
def createInsertSchema (t : List ColumnDef) : ZodShape :=
  ⟨t.map (·.key), (t.filter (fun c => c.notNull && !c.hasDefault)).map (·.key)⟩

/-- zod .omit: drop the listed keys from the shape. -/
def ZodShape.omit (s : ZodShape) (dropped : List String) : ZodShape :=
  ⟨s.fields.filter (fun f => !(dropped.contains f)),
   s.required.filter (fun f => !(dropped.contains f))⟩

/-- zod .partial (written out because the method name is not usable as a
Lean identifier here): every field becomes optional, so nothing is
required. -/
def zodAllOptional (s : ZodShape) : ZodShape :=
  ⟨s.fields, []⟩

/-- selectTasksSchema = createSelectSchema(tasks). -/
def selectTasksSchema : ZodShape := createSelectSchema tasksTable

/-- insertTasksSchema = createInsertSchema(tasks).omit(id, createdAt,
updatedAt). -/
def insertTasksSchema : ZodShape :=
  (createInsertSchema tasksTable).omit ["id", "createdAt", "updatedAt"]

/-- patchTasksSchema = insertTasksSchema.partial(). -/
def patchTasksSchema : ZodShape := zodAllOptional insertTasksSchema

/-- Whether the body supplies the given field. -/
def TaskBody.has (b : TaskBody) (f : String) : Bool :=
  match f with
  | "name" => b.name.isSome
  | "completed" => b.completed.isSome
  | _ => false

/-- The varchar(255) column makes drizzle-zod attach a max-length bound to
the name string schema; a supplied name passes only when its length is at
most 255. -/
def nameLenOk (b : TaskBody) : Bool :=
  match b.name with
  | none => true
  | some n => n.length ≤ 255

/-- Whether a body passes zod validation for this shape: all required
fields present, and the name field (when present) within its length
bound.  Type mismatches are precluded by the typed TaskBody fields. -/
def ZodShape.accepts (s : ZodShape) (b : TaskBody) : Bool :=
  s.required.all (fun f => b.has f) && nameLenOk b

/-- How many fields the body supplies (the length of Object.keys of the
parsed update body). -/
def TaskBody.fieldCount (b : TaskBody) : Nat :=
  (if b.name.isSome then 1 else 0) + (if b.completed.isSome then 1 else 0)

namespace ZOD_ERROR_CODES

/-- src/lib/constants.ts: ZOD_ERROR_CODES.INVALID_UPDATES. -/
def INVALID_UPDATES : String := "invalid_updates"

end ZOD_ERROR_CODES

namespace ZOD_ERROR_MESSAGES

/-- src/lib/constants.ts: ZOD_ERROR_MESSAGES.NO_UPDATES. -/
def NO_UPDATES : String := "No updates provided"

end ZOD_ERROR_MESSAGES

/-- The persistence store: the task rows plus the serial sequence counter
that yields the next id. -/
structure Store where
  rows : List TaskRow
  nextId : Nat
deriving Repr, DecidableEq

/-- Store well-formedness: ids are pairwise distinct and every id is below
the serial counter. -/
def Store.wf (s : Store) : Prop :=
  (s.rows.map (·.id)).Nodup ∧ ∀ t ∈ s.rows, t.id < s.nextId

instance (s : Store) : Decidable s.wf := by
  unfold Store.wf
  infer_instance

/-- The outcome of a task handler, paired below with the resulting store. -/
inductive TaskResponse where
  | okTask (t : TaskRow)
  | okList (ts : List TaskRow)
  | noContent
  | notFoundErr
  | zodError
  | invalidUpdates (code msg : String)
deriving Repr, DecidableEq

/-- HTTP status carried by each handler outcome. -/
def TaskResponse.status : TaskResponse → Nat
  | .okTask _ => 200
  | .okList _ => 200
  | .noContent => 204
  | .notFoundErr => 404
  | .zodError => 422
  | .invalidUpdates _ _ => 422

/-- Modelled from the spec: tasks.handlers.ts is not under src/.  The list
handler performs a single select of all rows and returns them (order total
and stable: the store keeps rows in ascending id order). -/
def listTasks (s : Store) : TaskResponse × Store :=
  (.okList s.rows, s)

/-- Modelled from the spec: tasks.handlers.ts is not under src/.  The
create handler validates the body against insertTasksSchema (the zod layer
runs before the handler), inserts one row with server-generated id and
timestamps, applying the database default completed = false when the body
omits completed, and returns the inserted row. -/
def createTask (now : Nat) (b : TaskBody) (s : Store) : TaskResponse × Store :=
  if insertTasksSchema.accepts b then
    let t : TaskRow := ⟨s.nextId, b.name.getD "", b.completed.getD false, now, now⟩
    (.okTask t, ⟨s.rows ++ [t], s.nextId + 1⟩)
  else
    (.zodError, s)

/-- Modelled from the spec: tasks.handlers.ts is not under src/.  The
get-one handler looks the id up and returns the row or a not-found
error. -/
def getOneTask (id : Nat) (s : Store) : TaskResponse × Store :=
  match s.rows.find? (fun t => t.id == id) with
  | some t => (.okTask t, s)
  | none => (.notFoundErr, s)

/-- Apply the supplied update fields to a row and refresh updatedAt. -/
def applyUpdates (b : TaskBody) (now : Nat) (t : TaskRow) : TaskRow :=
  { t with
    name := b.name.getD t.name
    completed := b.completed.getD t.completed
    updatedAt := now }

/-- Modelled from the spec: tasks.handlers.ts is not under src/.  The patch
handler first passes the body through the patchTasksSchema zod validation,
then rejects bodies that supply zero fields with the INVALID_UPDATES /
NO_UPDATES unprocessable-entity error before any persistence call, then
looks the id up (not-found error when absent), applies the supplied
fields, refreshes updatedAt and returns the updated row. -/
def patchTask (now id : Nat) (b : TaskBody) (s : Store) : TaskResponse × Store :=
  if !(patchTasksSchema.accepts b) then
    (.zodError, s)
  else if b.fieldCount = 0 then
    (.invalidUpdates ZOD_ERROR_CODES.INVALID_UPDATES ZOD_ERROR_MESSAGES.NO_UPDATES, s)
  else
    match s.rows.find? (fun t => t.id == id) with
    | none => (.notFoundErr, s)
    | some t =>
      let t' := applyUpdates b now t
      (.okTask t', ⟨s.rows.map (fun u => if u.id = id then t' else u), s.nextId⟩)

/-- Modelled from the spec: tasks.handlers.ts is not under src/.  The
delete handler removes the row with the given id and answers no-content,
or not-found when no row matched. -/
def deleteTask (id : Nat) (s : Store) : TaskResponse × Store :=
  if s.rows.any (fun t => t.id == id) then
    (.noContent, ⟨s.rows.filter (fun t => !(t.id == id)), s.nextId⟩)
  else
    (.notFoundErr, s)

/-- HTTP methods appearing in the application. -/
inductive Method where
  | GET
  | POST
  | PATCH
  | DELETE
  | PUT
  | OPTIONS
deriving Repr, DecidableEq

/-- Whether the path matches the Hono pattern "/api/auth/*" used both for
the CORS middleware and for the Better-Auth route registration in
create-app.ts: the first two segments are api and auth and at least one
further segment follows. -/
def isAuthPath (p : List String) : Bool :=
  match p with
  | x :: y :: rest => x == "api" && y == "auth" && !rest.isEmpty
  | _ => false

/-- Whether the path matches the tasks item pattern "/tasks/:id" mounted
under /api: exactly the segments api, tasks and one nonempty id segment
(the :id parameter matches any single nonempty segment; numeric
validation happens later in the zod layer). -/
def isTaskItemPath (p : List String) : Bool :=
  match p with
  | [x, y, seg] => x == "api" && y == "tasks" && !(seg == "")
  | _ => false

/-- The terminal handlers registered on the application. -/
inductive Handler where
  | authCollaborator
  | apiIndex
  | tasksList
  | tasksCreate
  | tasksGetOne
  | tasksPatch
  | tasksRemove
  | docH
  | referenceH
  | llmsH
  | llmsTxt
  | notFoundH
deriving Repr, DecidableEq

/-- Whether the handler belongs to the tasks router. -/
def isTaskHandler : Handler → Bool
  | .tasksList => true
  | .tasksCreate => true
  | .tasksGetOne => true
  | .tasksPatch => true
  | .tasksRemove => true
  | _ => false

/-- Route matching, in the registration order of the source: create-app.ts
registers the Better-Auth handler with app.on for the methods POST and GET
on "/api/auth/*"; index.ts then mounts the index router (GET "/") and the
tasks router (GET and POST "/tasks", GET PATCH DELETE "/tasks/:id") under
"/api"; configure-open-api.ts finally registers GET "/doc", "/reference",
"/llms" and "/llms.txt".  A request matching none of these falls to the
stoker not-found handler installed by app.notFound. -/
def matchHandler (m : Method) (p : List String) : Handler :=
  if (m = Method.POST ∨ m = Method.GET) ∧ isAuthPath p = true then .authCollaborator
  else if m = Method.GET ∧ p = ["api"] then .apiIndex
  else if m = Method.GET ∧ p = ["api", "tasks"] then .tasksList
  else if m = Method.POST ∧ p = ["api", "tasks"] then .tasksCreate
  else if m = Method.GET ∧ isTaskItemPath p = true then .tasksGetOne
  else if m = Method.PATCH ∧ isTaskItemPath p = true then .tasksPatch
  else if m = Method.DELETE ∧ isTaskItemPath p = true then .tasksRemove
  else if m = Method.GET ∧ p = ["doc"] then .docH
  else if m = Method.GET ∧ p = ["reference"] then .referenceH
  else if m = Method.GET ∧ p = ["llms"] then .llmsH
  else if m = Method.GET ∧ p = ["llms.txt"] then .llmsTxt
  else .notFoundH

/-- The middleware and dispatch stages of the application shell, in the
order create-app.ts installs them: serveEmojiFavicon, pinoLogger, the CORS
middleware on "/api/auth/*", the session middleware on "*", the Better-Auth
delegation route, router dispatch, and the stoker not-found fallback. -/
inductive Stage where
  | favicon
  | logging
  | corsStage
  | sessionStage
  | authDelegate
  | router
  | notFoundStage
deriving Repr, DecidableEq

/-- Position of each stage in the installed chain. -/
def stagePos : Stage → Nat
  | .favicon => 0
  | .logging => 1
  | .corsStage => 2
  | .sessionStage => 3
  | .authDelegate => 4
  | .router => 5
  | .notFoundStage => 6

/-- The sequence of shell stages a request actually traverses, read off
create-app.ts: serveEmojiFavicon answers "/favicon.ico" directly and
passes every other request on; pinoLogger always passes on; the CORS
middleware runs only on auth-prefix paths and answers OPTIONS preflight
requests itself; the session middleware always passes on; the Better-Auth
route is registered for POST and GET on the auth prefix; everything else
goes to router dispatch, and to the not-found fallback when no route
matches. -/
def stageTrace (m : Method) (p : List String) : List Stage :=
  if p = ["favicon.ico"] then [.favicon]
  else
    [.favicon, .logging] ++
      (if isAuthPath p = true then
        [.corsStage] ++
          (if m = Method.OPTIONS then []
           else
             [.sessionStage] ++
               (if m = Method.GET ∨ m = Method.POST then [.authDelegate]
                else [.router, .notFoundStage]))
       else
        [.sessionStage, .router] ++
          (if matchHandler m p = .notFoundH then [.notFoundStage] else []))

/-- The top-level outcome of running the shell on one request, with the
response of the auth collaborator kept abstract: a request can be answered
by the favicon middleware, by the CORS preflight response, by the
delegated Better-Auth response returned as is, or by one of the other
registered handlers. -/
inductive AppResult (R : Type) where
  | faviconSvg
  | corsPreflight
  | delegated (r : R)
  | handled (h : Handler)
deriving Repr, DecidableEq

/-- Run the shell on one request; the parameter a is the opaque
Better-Auth request handler auth.handler, invoked on the raw request and
its response returned verbatim. -/
def appResult {R : Type} (a : Method → List String → R) (m : Method)
    (p : List String) : AppResult R :=
  if p = ["favicon.ico"] then .faviconSvg
  else if isAuthPath p = true ∧ m = Method.OPTIONS then .corsPreflight
  else
    match matchHandler m p with
    | .authCollaborator => .delegated (a m p)
    | h => .handled h

/-- The per-request context variables the session middleware fills in
(AppBindings in the source); the user and session values produced by the
auth collaborator stay opaque type parameters. -/
structure AppContext (U S : Type) where
  user : Option U
  session : Option S
deriving Repr, DecidableEq

/-- The session middleware of create-app.ts.  Its input r is the value of
auth.api.getSession on the inbound headers (none when no session exists).
It returns the updated context together with a Bool recording whether it
passed control to the next stage; both branches of the source return
next(), so the Bool is true on every path. -/
def sessionMiddleware {U S : Type} (r : Option (U × S)) (c : AppContext U S) :
    AppContext U S × Bool :=
  match r with
  | none => ({ c with user := none, session := none }, true)
  | some (u, s) => ({ c with user := some u, session := some s }, true)

/-- The GET /llms.txt handler of configure-open-api.ts.  Its input is the
combined outcome of getOpenAPI31Document and createMarkdownFromOpenApi
(both opaque collaborators, called inside the try block): ok with the
markdown, or error when either throws.  The handler answers 200 with the
markdown on success and 500 with a fixed error body on failure. -/
def llmsTxtHandler (derivation : Except String String) : Nat × String :=
  match derivation with
  | .ok md => (200, md)
  | .error _ => (500, "Error generating API documentation")

/-- The app.onError boundary of create-app.ts: a handler outcome that threw
is replaced by the uniform error body, a normal outcome passes through
unchanged. -/
def onErrorBoundary {R : Type} (uniform : R) : Except String R → R
  | .ok v => v
  | .error _ => uniform

/-- One segment of a declared route path: a literal segment or the :id
parameter (matching any single nonempty segment). -/
inductive SegPattern where
  | lit (s : String)
  | param
deriving Repr, DecidableEq

/-- Whether a pattern segment matches a concrete path segment. -/
def segMatches : SegPattern → String → Bool
  | .lit s, x => s == x
  | .param, x => !(x == "")

/-- Whether a declared route path matches a concrete path, segment by
segment. -/
def pathMatches : List SegPattern → List String → Bool
  | [], [] => true
  | pat :: pats, x :: xs => segMatches pat x && pathMatches pats xs
  | _, _ => false

/-- Modelled from the spec: the route declaration files (tasks.routes.ts,
index.routes.ts) are not under src/.  A route descriptor: method, path
pattern (with the /api mount prefix applied), the handler bound to it by
the router assembly, and the response status codes it declares, from the
external-interface table of the spec. -/
structure RouteDecl where
  method : Method
  pattern : List SegPattern
  handler : Handler
  statuses : List Nat
deriving Repr, DecidableEq

/-- Modelled from the spec: the declared route table consumed both by the
dispatcher and by the documentation generator — the index route and the
five task routes of the external-interface table, with their response
statuses. -/
def routeTable : List RouteDecl :=
  [⟨Method.GET, [.lit "api"], .apiIndex, [200]⟩,
   ⟨Method.GET, [.lit "api", .lit "tasks"], .tasksList, [200]⟩,
   ⟨Method.POST, [.lit "api", .lit "tasks"], .tasksCreate, [200, 422]⟩,
   ⟨Method.GET, [.lit "api", .lit "tasks", .param], .tasksGetOne, [200, 404, 422]⟩,
   ⟨Method.PATCH, [.lit "api", .lit "tasks", .param], .tasksPatch, [200, 404, 422]⟩,
   ⟨Method.DELETE, [.lit "api", .lit "tasks", .param], .tasksRemove, [204, 404, 422]⟩]

/-- One path/method/status-set entry of the generated OpenAPI document. -/
structure DocEntry where
  method : Method
  pattern : List SegPattern
  statuses : List Nat
deriving Repr, DecidableEq

/-- The document entry the generator derives from one route declaration. -/
def docOfRoute (r : RouteDecl) : DocEntry :=
  ⟨r.method, r.pattern, r.statuses⟩

/-- The entries of the document served at /doc: the zod-openapi generator
iterates exactly the registered route declarations (app.doc walks the
routes registered through .openapi), so the document is the image of the
route table. -/
def docEntries : List DocEntry := routeTable.map docOfRoute

theorem find_by_id_of_mem (l : List TaskRow)
    (h : l.Pairwise (fun a b => a.id ≠ b.id)) (t : TaskRow) (ht : t ∈ l)
    (i : Nat) (hi : t.id = i) :
    l.find? (fun u => u.id == i) = some t := by
  induction l with
  | nil => cases ht
  | cons a l ih =>
    rcases List.mem_cons.mp ht with rfl | htl
    · exact List.find?_cons_of_pos _ (by simp [hi])
    · have ha : a.id ≠ t.id := (List.pairwise_cons.mp h).1 t htl
      rw [List.find?_cons_of_neg _ (by simp [← hi]; exact fun hc => ha (hc.symm ▸ rfl))]
      exact ih (List.pairwise_cons.mp h).2 htl

/-- Claim C1: a PATCH request whose body supplies zero fields is answered
with the invalid-updates validation error (unprocessable entity, carrying
the INVALID_UPDATES code and NO_UPDATES message from constants.ts), the
store is returned unchanged, and the outcome does not depend on the store
at all — the error is produced before any persistence call. -/
theorem C1_empty_patch_rejected (now id : Nat) (b : TaskBody) (s : Store)
    (hb : b.fieldCount = 0) :
    patchTask now id b s =
      (.invalidUpdates ZOD_ERROR_CODES.INVALID_UPDATES ZOD_ERROR_MESSAGES.NO_UPDATES, s) ∧
    (patchTask now id b s).1.status = 422 ∧
    (patchTask now id b s).1 = (patchTask now id b ⟨[], 1⟩).1 := by
  obtain ⟨bn, bc⟩ := b
  cases bn <;> cases bc <;> simp [TaskBody.fieldCount] at hb
  exact ⟨rfl, rfl, rfl⟩

theorem C1_empty_patch_rejected_witness :
    (⟨none, none⟩ : TaskBody).fieldCount = 0 ∧
    patchTask 5 1 ⟨none, none⟩ ⟨[⟨1, "a", false, 0, 0⟩], 2⟩ =
      (.invalidUpdates ZOD_ERROR_CODES.INVALID_UPDATES ZOD_ERROR_MESSAGES.NO_UPDATES,
        ⟨[⟨1, "a", false, 0, 0⟩], 2⟩) :=
  ⟨by decide, (C1_empty_patch_rejected 5 1 ⟨none, none⟩ _ (by decide)).1⟩

/-- Claim C3 counterexample: the create shape does not require all of its
fields — completed is absent from its required list, and a create body
that supplies only name passes the create-shape validation.  The column
completed carries a database default, and drizzle-zod makes
default-bearing columns optional in the insert schema (the source applies
no .required fix-up). -/
theorem C3_create_required_counterexample :
    "completed" ∉ insertTasksSchema.required ∧
    "completed" ∈ insertTasksSchema.fields ∧
    insertTasksSchema.accepts ⟨some "buy milk", none⟩ = true ∧
    (⟨some "buy milk", none⟩ : TaskBody).has "completed" = false := by
  decide

/-- Claim C3 as amended: the read shape lists all five fields; the create
shape lists exactly name and completed, with name required and completed
optional; the partial-update shape lists the same fields as the create
shape with none of them required; and the invalid-updates rejection of the
update pipeline fires exactly on bodies supplying zero fields (bodies with
at least one field are never answered with that error, zero-field bodies
always are). -/
theorem C3_shapes_amended :
    selectTasksSchema.fields = ["id", "name", "completed", "createdAt", "updatedAt"] ∧
    insertTasksSchema.fields = ["name", "completed"] ∧
    insertTasksSchema.required = ["name"] ∧
    patchTasksSchema.fields = insertTasksSchema.fields ∧
    patchTasksSchema.required = [] ∧
    (∀ now id s, patchTask now id ⟨none, none⟩ s =
      (.invalidUpdates ZOD_ERROR_CODES.INVALID_UPDATES ZOD_ERROR_MESSAGES.NO_UPDATES, s)) ∧
    (∀ now id b s,
      (patchTask now id b s).1 =
          .invalidUpdates ZOD_ERROR_CODES.INVALID_UPDATES ZOD_ERROR_MESSAGES.NO_UPDATES →
        b.fieldCount = 0) := by
  refine ⟨by decide, by decide, by decide, by decide, by decide, ?_, ?_⟩
  · intro now id s
    rfl
  · intro now id b s h
    unfold patchTask at h
    split at h
    · cases h
    · split at h
      · assumption
      · split at h <;> cases h

theorem C3_shapes_amended_witness :
    (⟨none, none⟩ : TaskBody).fieldCount = 0 :=
  C3_shapes_amended.2.2.2.2.2.2 5 1 ⟨none, none⟩ ⟨[], 1⟩ rfl

/-- Claim C4: on a well-formed store, patching an existing id with the
single field completed = true answers with that row updated in completed
and updatedAt only (name, createdAt and id are untouched, as the record
update in the statement shows), rewrites exactly that row in the store,
leaves the serial counter alone, and leaves every other row in place
unchanged. -/
theorem C4_patch_completed_frame (now id : Nat) (s : Store) (t : TaskRow)
    (hw : s.wf) (ht : t ∈ s.rows) (hid : t.id = id) :
    (patchTask now id ⟨none, some true⟩ s).1 =
      .okTask { t with completed := true, updatedAt := now } ∧
    (patchTask now id ⟨none, some true⟩ s).2.rows =
      s.rows.map
        (fun u => if u.id = id then { t with completed := true, updatedAt := now } else u) ∧
    (patchTask now id ⟨none, some true⟩ s).2.nextId = s.nextId ∧
    (∀ u ∈ s.rows, u.id ≠ id → u ∈ (patchTask now id ⟨none, some true⟩ s).2.rows) := by
  have hpw : s.rows.Pairwise (fun a b => a.id ≠ b.id) := List.pairwise_map.mp hw.1
  have hfind : s.rows.find? (fun u => u.id == id) = some t :=
    find_by_id_of_mem _ hpw t ht id hid
  have hstep : patchTask now id ⟨none, some true⟩ s =
      match s.rows.find? (fun u => u.id == id) with
      | none => (.notFoundErr, s)
      | some t0 =>
        (.okTask (applyUpdates ⟨none, some true⟩ now t0),
         ⟨s.rows.map (fun u => if u.id = id then applyUpdates ⟨none, some true⟩ now t0 else u),
          s.nextId⟩) := rfl
  rw [hstep, hfind]
  dsimp only
  have happly : applyUpdates ⟨none, some true⟩ now t =
      { t with completed := true, updatedAt := now } := rfl
  rw [happly]
  refine ⟨rfl, rfl, rfl, ?_⟩
  intro u hu hne
  have hgu : (if u.id = id then { t with completed := true, updatedAt := now } else u) = u :=
    if_neg hne
  exact hgu ▸ List.mem_map_of_mem _ hu

theorem C4_patch_completed_frame_witness :
    (patchTask 9 1 ⟨none, some true⟩ ⟨[⟨1, "a", false, 0, 0⟩, ⟨2, "b", false, 7, 7⟩], 3⟩).1 =
      .okTask ⟨1, "a", true, 0, 9⟩ ∧
    (⟨2, "b", false, 7, 7⟩ : TaskRow) ∈
      (patchTask 9 1 ⟨none, some true⟩ ⟨[⟨1, "a", false, 0, 0⟩, ⟨2, "b", false, 7, 7⟩], 3⟩).2.rows :=
  ⟨(C4_patch_completed_frame 9 1 _ ⟨1, "a", false, 0, 0⟩ (by decide) (by decide) rfl).1,
   (C4_patch_completed_frame 9 1 _ ⟨1, "a", false, 0, 0⟩ (by decide) (by decide) rfl).2.2.2
     ⟨2, "b", false, 7, 7⟩ (by decide) (by decide)⟩

/-- Claim C8: every column of the tasks table is declared notNull (so no
persisted field is null); each of the three mutating operations preserves
store well-formedness (pairwise-distinct ids below the serial counter),
so ids stay unique after create, update and delete; and a create whose
body omits completed inserts a row with completed = false, the database
default. -/
theorem C8_store_invariants :
    (∀ c ∈ tasksTable, c.notNull = true) ∧
    (∀ now b s, Store.wf s → Store.wf (createTask now b s).2) ∧
    (∀ now id b s, Store.wf s → Store.wf (patchTask now id b s).2) ∧
    (∀ id s, Store.wf s → Store.wf (deleteTask id s).2) ∧
    (∀ now (n : String) (s : Store), n.length ≤ 255 →
      (createTask now ⟨some n, none⟩ s).1 = .okTask ⟨s.nextId, n, false, now, now⟩) := by
  refine ⟨by decide, ?_, ?_, ?_, ?_⟩
  · intro now b s hw
    unfold createTask
    split
    · refine ⟨?_, ?_⟩
      · rw [List.map_append, List.nodup_append]
        refine ⟨hw.1, by simp, ?_⟩
        intro x hx
        rcases List.mem_map.mp hx with ⟨u, hu, rfl⟩
        simp only [List.map_cons, List.map_nil, List.mem_singleton]
        exact Nat.ne_of_lt (hw.2 u hu)
      · intro t ht
        rcases List.mem_append.mp ht with h | h
        · exact Nat.lt_succ_of_lt (hw.2 t h)
        · rcases List.mem_singleton.mp h with rfl
          exact Nat.lt_succ_self _
    · exact hw
  · intro now id b s hw
    unfold patchTask
    split
    · exact hw
    · split
      · exact hw
      · cases hf : s.rows.find? (fun t => t.id == id) with
        | none => exact hw
        | some t =>
          have hid_t : t.id = id := by simpa using List.find?_some hf
          have hg : ∀ u : TaskRow,
              (if u.id = id then applyUpdates b now u else u).id = u.id := by
            intro u; split <;> rfl
          have hg' : ∀ u : TaskRow,
              (if u.id = id then applyUpdates b now t else u).id = u.id := by
            intro u
            split
            · next h => show t.id = u.id; rw [hid_t, h]
            · rfl
          refine ⟨?_, ?_⟩
          · rw [List.map_map]
            have : s.rows.map ((fun u : TaskRow => u.id) ∘
                (fun u => if u.id = id then applyUpdates b now t else u)) =
                s.rows.map (fun u => u.id) := by
              refine List.map_congr_left ?_
              intro u _
              exact hg' u
            rw [this]
            exact hw.1
          · intro x hx
            rcases List.mem_map.mp hx with ⟨u, hu, rfl⟩
            rw [hg' u]
            exact hw.2 u hu
  · intro id s hw
    unfold deleteTask
    split
    · refine ⟨?_, ?_⟩
      · exact List.Nodup.sublist (List.Sublist.map _ (List.filter_sublist _)) hw.1
      · intro t ht
        exact hw.2 t (List.mem_of_mem_filter ht)
    · exact hw
  · intro now n s hlen
    have hacc : insertTasksSchema.accepts ⟨some n, none⟩ = true := by
      show (["name"].all (fun f => TaskBody.has ⟨some n, none⟩ f) && nameLenOk ⟨some n, none⟩) = true
      simp [TaskBody.has, nameLenOk, hlen]
    unfold createTask
    rw [if_pos hacc]
    rfl

theorem C8_store_invariants_witness :
    Store.wf (createTask 3 ⟨some "x", some true⟩ ⟨[⟨1, "a", false, 0, 0⟩], 2⟩).2 ∧
    Store.wf (patchTask 3 1 ⟨some "y", none⟩ ⟨[⟨1, "a", false, 0, 0⟩], 2⟩).2 ∧
    Store.wf (deleteTask 1 ⟨[⟨1, "a", false, 0, 0⟩], 2⟩).2 ∧
    (createTask 3 ⟨some "x", none⟩ ⟨[], 1⟩).1 = .okTask ⟨1, "x", false, 3, 3⟩ :=
  ⟨C8_store_invariants.2.1 3 _ _ (by decide),
   C8_store_invariants.2.2.1 3 1 _ _ (by decide),
   C8_store_invariants.2.2.2.1 1 _ (by decide),
   C8_store_invariants.2.2.2.2 3 "x" ⟨[], 1⟩ (by decide)⟩

theorem authPath_shape (p : List String) (hp : isAuthPath p = true) :
    ∃ r rs, p = "api" :: "auth" :: r :: rs := by
  cases p with
  | nil => cases hp
  | cons x xs =>
    cases xs with
    | nil => simp [isAuthPath] at hp
    | cons y ys =>
      simp [isAuthPath] at hp
      obtain ⟨⟨rfl, rfl⟩, hy⟩ := hp
      cases ys with
      | nil => simp at hy
      | cons r rs => exact ⟨r, rs, rfl⟩

/-- Claim C2 counterexample: a DELETE request to an auth-prefix path is not
delegated to the auth collaborator — the Better-Auth route is registered
only for POST and GET, so the request falls through to the not-found
handler.  (It still never reaches the task router.) -/
theorem C2_auth_delegation_counterexample :
    isAuthPath ["api", "auth", "session"] = true ∧
    appResult (fun _ _ => (0 : Nat)) .DELETE ["api", "auth", "session"] =
      .handled .notFoundH ∧
    matchHandler .DELETE ["api", "auth", "session"] ≠ .authCollaborator := by
  decide

/-- Claim C2 as amended: no request to an auth-prefix path is ever
dispatched to a task-router handler, for any method; a POST or GET request
to an auth-prefix path is delegated to the auth collaborator and its
response returned verbatim; an OPTIONS request is answered by the CORS
middleware as a preflight response; requests with any other method are not
delegated and fall through to the not-found handler. -/
theorem C2_auth_prefix_amended (R : Type) (a : Method → List String → R)
    (m : Method) (p : List String) (hp : isAuthPath p = true) :
    isTaskHandler (matchHandler m p) = false ∧
    ((m = Method.GET ∨ m = Method.POST) → appResult a m p = .delegated (a m p)) ∧
    (m = Method.OPTIONS → appResult a m p = .corsPreflight) ∧
    (m = Method.PATCH ∨ m = Method.DELETE ∨ m = Method.PUT →
      appResult a m p = .handled .notFoundH) := by
  obtain ⟨r, rs, rfl⟩ := authPath_shape p hp
  cases m <;> cases rs <;>
    simp [matchHandler, appResult, isTaskHandler, isAuthPath, isTaskItemPath]

theorem C2_auth_prefix_amended_witness :
    isTaskHandler (matchHandler .GET ["api", "auth", "session"]) = false ∧
    appResult (fun _ _ => (7 : Nat)) .GET ["api", "auth", "session"] = .delegated 7 ∧
    appResult (fun _ _ => (7 : Nat)) .OPTIONS ["api", "auth", "session"] = .corsPreflight ∧
    appResult (fun _ _ => (7 : Nat)) .DELETE ["api", "auth", "session"] =
      .handled .notFoundH :=
  ⟨(C2_auth_prefix_amended Nat (fun _ _ => 7) .GET ["api", "auth", "session"] (by decide)).1,
   (C2_auth_prefix_amended Nat (fun _ _ => 7) .GET ["api", "auth", "session"]
      (by decide)).2.1 (Or.inl rfl),
   (C2_auth_prefix_amended Nat (fun _ _ => 7) .OPTIONS ["api", "auth", "session"]
      (by decide)).2.2.1 rfl,
   (C2_auth_prefix_amended Nat (fun _ _ => 7) .DELETE ["api", "auth", "session"]
      (by decide)).2.2.2 (Or.inr (Or.inl rfl))⟩

/-- Claim C5: the session-resolution middleware never aborts the request —
it passes control to the next stage for every possible lookup outcome;
when the auth collaborator yields no session it attaches null user and
null session, and when it yields a session pair it attaches exactly that
user and session to the request context. -/
theorem C5_session_middleware_never_aborts (U S : Type) (r : Option (U × S))
    (c : AppContext U S) :
    (sessionMiddleware r c).2 = true ∧
    (r = none → (sessionMiddleware r c).1 = ⟨none, none⟩) ∧
    (∀ u s, r = some (u, s) → (sessionMiddleware r c).1 = ⟨some u, some s⟩) := by
  cases r with
  | none => exact ⟨rfl, fun _ => rfl, fun u s h => by cases h⟩
  | some us =>
    obtain ⟨u, s⟩ := us
    refine ⟨rfl, ?_, ?_⟩
    · intro h
      cases h
    · intro u' s' h
      cases h
      rfl

theorem C5_session_middleware_never_aborts_witness :
    (sessionMiddleware (some (1, 2)) (⟨none, none⟩ : AppContext Nat Nat)).2 = true ∧
    (sessionMiddleware (some (1, 2)) (⟨none, none⟩ : AppContext Nat Nat)).1 =
      ⟨some 1, some 2⟩ ∧
    (sessionMiddleware (none : Option (Nat × Nat)) ⟨some 3, some 4⟩).1 = ⟨none, none⟩ :=
  ⟨(C5_session_middleware_never_aborts Nat Nat (some (1, 2)) ⟨none, none⟩).1,
   (C5_session_middleware_never_aborts Nat Nat (some (1, 2)) ⟨none, none⟩).2.2 1 2 rfl,
   (C5_session_middleware_never_aborts Nat Nat none ⟨some 3, some 4⟩).2.1 rfl⟩

/-- Claim C10: after the session middleware runs, the context user and
session are either both null, or both come from the same single successful
lookup — no context ever carries exactly one of the two. -/
theorem C10_user_session_paired (U S : Type) (r : Option (U × S))
    (c : AppContext U S) :
    ((sessionMiddleware r c).1.user = none ∧ (sessionMiddleware r c).1.session = none) ∨
    (∃ u s, r = some (u, s) ∧ (sessionMiddleware r c).1.user = some u ∧
      (sessionMiddleware r c).1.session = some s) := by
  cases r with
  | none => exact Or.inl ⟨rfl, rfl⟩
  | some us =>
    obtain ⟨u, s⟩ := us
    exact Or.inr ⟨u, s, rfl, rfl, rfl⟩

/-- Claim C7: GET /llms.txt is routed to the llms.txt handler; when the
plain-text markdown derivation succeeds the handler answers 200 with
exactly that markdown, and when the derivation fails it answers 500 with
the fixed error body — and the handler is a total function, so every
derivation outcome yields one of these two responses and the failure never
escapes. -/
theorem C7_llms_txt_degrades (md e : String) (d : Except String String) :
    matchHandler .GET ["llms.txt"] = .llmsTxt ∧
    llmsTxtHandler (.ok md) = (200, md) ∧
    llmsTxtHandler (.error e) = (500, "Error generating API documentation") ∧
    ((llmsTxtHandler d).1 = 200 ∨ (llmsTxtHandler d).1 = 500) := by
  refine ⟨by decide, rfl, rfl, ?_⟩
  cases d with
  | ok _ => exact Or.inl rfl
  | error _ => exact Or.inr rfl

theorem matchHandler_auth_other (m : Method) (p : List String)
    (hp : isAuthPath p = true) (hm : ¬(m = Method.GET ∨ m = Method.POST)) :
    matchHandler m p = .notFoundH := by
  obtain ⟨r, rs, rfl⟩ := authPath_shape p hp
  cases m <;> cases rs <;>
    first
      | exact absurd (Or.inl rfl) hm
      | exact absurd (Or.inr rfl) hm
      | simp [matchHandler, isAuthPath, isTaskItemPath]

/-- Claim C6 counterexample: a request for /favicon.ico is answered by the
favicon middleware, which runs before the logger: its stage trace is just
the favicon stage, so it traverses neither the logging stage nor the
session-resolution stage, contradicting the claim that every inbound
request traverses those stages. -/
theorem C6_stage_order_counterexample :
    stageTrace .GET ["favicon.ico"] = [Stage.favicon] ∧
    Stage.logging ∉ stageTrace .GET ["favicon.ico"] ∧
    Stage.sessionStage ∉ stageTrace .GET ["favicon.ico"] := by
  decide

/-- Claim C6 as amended: every request traverses the shell stages in the
fixed installed order (the trace is strictly increasing in stage position,
so each stage runs at most once, with no retries); every request other
than /favicon.ico traverses the logging stage, and traverses the CORS
stage exactly when its path has the auth prefix; every such request also
traverses the session-resolution stage unless it is an OPTIONS preflight
to an auth path, which the CORS stage answers first; the auth-delegation
stage runs only for GET or POST requests to auth paths; the not-found
stage runs only when no route matches; and the outermost error boundary
replaces a failed handler outcome by the uniform error body and passes
successful outcomes through unchanged.  (A /favicon.ico request is
answered by the favicon stage before logging.) -/
theorem C6_stage_order_amended :
    (∀ m p, (stageTrace m p).Pairwise (fun a b => stagePos a < stagePos b)) ∧
    (∀ m p, p ≠ ["favicon.ico"] →
      Stage.logging ∈ stageTrace m p ∧
      (Stage.corsStage ∈ stageTrace m p ↔ isAuthPath p = true)) ∧
    (∀ m p, p ≠ ["favicon.ico"] → ¬(isAuthPath p = true ∧ m = Method.OPTIONS) →
      Stage.sessionStage ∈ stageTrace m p) ∧
    (∀ m p, Stage.authDelegate ∈ stageTrace m p →
      isAuthPath p = true ∧ (m = Method.GET ∨ m = Method.POST)) ∧
    (∀ m p, Stage.notFoundStage ∈ stageTrace m p → matchHandler m p = .notFoundH) ∧
    (∀ (R : Type) (u : R) (e : String), onErrorBoundary u (.error e) = u) ∧
    (∀ (R : Type) (u v : R), onErrorBoundary u (.ok v) = v) := by
  refine ⟨?_, ?_, ?_, ?_, ?_, fun R u e => rfl, fun R u v => rfl⟩
  · intro m p
    unfold stageTrace
    split
    · decide
    · split
      · split
        · decide
        · split <;> decide
      · split <;> decide
  · intro m p hpfav
    unfold stageTrace
    split
    · next h => exact absurd h hpfav
    · split
      · next h =>
        split
        · simp [h]
        · split <;> simp [h]
      · next h =>
        rw [Bool.not_eq_true] at h
        split <;> simp [h]
  · intro m p hpfav hno
    unfold stageTrace
    split
    · next h => exact absurd h hpfav
    · split
      · next h =>
        split
        · next hm => exact absurd ⟨h, hm⟩ hno
        · split <;> decide
      · split <;> decide
  · intro m p hmem
    unfold stageTrace at hmem
    split at hmem
    · simp at hmem
    · split at hmem
      · next h =>
        split at hmem
        · simp at hmem
        · split at hmem
          · next hgp => exact ⟨h, hgp⟩
          · simp at hmem
      · split at hmem <;> simp at hmem
  · intro m p hmem
    unfold stageTrace at hmem
    split at hmem
    · simp at hmem
    · split at hmem
      · next h =>
        split at hmem
        · simp at hmem
        · split at hmem
          · simp at hmem
          · next hgp => exact matchHandler_auth_other m p h hgp
      · split at hmem
        · assumption
        · simp at hmem

theorem C6_stage_order_amended_witness :
    (Stage.logging ∈ stageTrace .GET ["api", "tasks"] ∧
      (Stage.corsStage ∈ stageTrace .GET ["api", "tasks"] ↔
        isAuthPath ["api", "tasks"] = true)) ∧
    Stage.sessionStage ∈ stageTrace .GET ["api", "tasks"] ∧
    (isAuthPath ["api", "auth", "x"] = true ∧
      (Method.GET = Method.GET ∨ Method.GET = Method.POST)) ∧
    matchHandler .GET ["nope"] = .notFoundH :=
  ⟨C6_stage_order_amended.2.1 .GET ["api", "tasks"] (by decide),
   C6_stage_order_amended.2.2.1 .GET ["api", "tasks"] (by decide) (by decide),
   C6_stage_order_amended.2.2.2.1 .GET ["api", "auth", "x"] (by decide),
   C6_stage_order_amended.2.2.2.2.1 .GET ["nope"] (by decide)⟩

/-- Claim C9: the document served at /doc is generated by iterating the
same declared route table the dispatcher consumes; every document entry
(path pattern, method, status set) corresponds to a declared route and
every declared route appears in the document; and the dispatcher agrees
with the table — every request matching a declared route is dispatched to
exactly the handler that route declares. -/
theorem C9_doc_route_consistency :
    docEntries = routeTable.map docOfRoute ∧
    (∀ e ∈ docEntries, ∃ r ∈ routeTable,
      e.method = r.method ∧ e.pattern = r.pattern ∧ e.statuses = r.statuses) ∧
    (∀ r ∈ routeTable, docOfRoute r ∈ docEntries) ∧
    (∀ r ∈ routeTable, ∀ p, pathMatches r.pattern p = true →
      matchHandler r.method p = r.handler) := by
  refine ⟨rfl, ?_, ?_, ?_⟩
  · intro e he
    rcases List.mem_map.mp he with ⟨r, hr, rfl⟩
    exact ⟨r, hr, rfl, rfl, rfl⟩
  · intro r hr
    exact List.mem_map_of_mem _ hr
  · intro r hr
    fin_cases hr <;> intro p hp <;>
      rcases p with _ | ⟨x, _ | ⟨y, _ | ⟨z, _ | ⟨w, rest⟩⟩⟩⟩ <;>
      simp [pathMatches, segMatches] at hp
    · subst hp
      decide
    · obtain ⟨rfl, rfl⟩ := hp
      decide
    · obtain ⟨rfl, rfl⟩ := hp
      decide
    · obtain ⟨rfl, rfl, hz⟩ := hp
      simp [matchHandler, isAuthPath, isTaskItemPath, hz]
    · obtain ⟨rfl, rfl, hz⟩ := hp
      simp [matchHandler, isAuthPath, isTaskItemPath, hz]
    · obtain ⟨rfl, rfl, hz⟩ := hp
      simp [matchHandler, isAuthPath, isTaskItemPath, hz]

theorem C9_doc_route_consistency_witness :
    matchHandler .GET ["api", "tasks", "7"] = .tasksGetOne ∧
    docOfRoute ⟨Method.GET, [.lit "api", .lit "tasks"], .tasksList, [200]⟩ ∈ docEntries :=
  ⟨C9_doc_route_consistency.2.2.2
      ⟨Method.GET, [.lit "api", .lit "tasks", .param], .tasksGetOne, [200, 404, 422]⟩
      (by decide) ["api", "tasks", "7"] (by decide),
   C9_doc_route_consistency.2.2.1 _ (by decide)⟩
